import Mathlib

/-!
Verification of the deepagents-runtime event-driven execution pipeline.

The repository ships the tests, mocks and metrics of an agent-executor
service.  The pipeline itself (the NATS job consumer, the CloudEvents
result emitter, the Redis progress publisher) is exercised by
`src/tests/integration/test_nats_events_integration.py` and described in
the specification; where the implementation module is not part of the
source tree, the definitions below are modelled from the spec, as their
doc comments state.  The orchestrator validation tools `pre_work` and
`post_work` are embedded directly from
`src/tests/mock/tools/pre_work.py` and `src/tests/mock/tools/post_work.py`.
-/

namespace AgentExec

/-- Modelled from the spec: a Job Request (§3) — `job_id`, `trace_id`,
`workflow_definition`, `input_payload`; the two documents are kept opaque. -/
structure JobRequest where
  job_id : String
  trace_id : String
  workflow_definition : String
  input_payload : String
deriving DecidableEq, Repr

/-- Modelled from the spec: a raw inbound payload as seen by the consumer.
`wellFormed` is whether the bytes parse as a structured envelope at all;
each required field of the nested `data` object is present or missing. -/
structure RawPayload where
  wellFormed : Bool
  job_id : Option String
  trace_id : Option String
  workflow_definition : Option String
  input_payload : Option String
deriving DecidableEq, Repr

/-- Modelled from the spec (§4.1 steps 1–2, missing module `models/events.py`):
parsing succeeds exactly when the payload is a well-formed envelope and all
four required fields are present; missing required fields are treated as
malformed. -/
def parseJob (r : RawPayload) : Option JobRequest :=
  if r.wellFormed then
    match r.job_id, r.trace_id, r.workflow_definition, r.input_payload with
    | some j, some t, some w, some i => some ⟨j, t, w, i⟩
    | _, _, _, _ => none
  else none

/-- Modelled from the spec (§3): the Result Envelope published on the
outbound status stream, with the CloudEvents envelope fields and the
nested `data` object flattened into `data_` fields. -/
structure ResultEnvelope where
  spec_version : String
  type : String
  source : String
  subject : String
  id : String
  time : String
  data_job_id : String
  data_trace_id : String
  data_status : String
  data_result_or_error : String
deriving DecidableEq, Repr

/-- Modelled from the spec (§4.2, missing module `services/nats_consumer.py`):
`publish_result(job_id, result, trace_id, status)` wraps the payload in the
standard envelope.  The unique event id and the timestamp are inputs here
since they are generated non-deterministically by the emitter. -/
def publish_result (job_id : String) (result : String) (trace_id : String)
    (status : String) (event_id : String) (event_time : String) : ResultEnvelope :=
  { spec_version := "1.0"
  , type := "dev.my-platform.agent.status"
  , source := "agent-executor"
  , subject := job_id
  , id := event_id
  , time := event_time
  , data_job_id := job_id
  , data_trace_id := trace_id
  , data_status := status
  , data_result_or_error := result }

/-- Modelled from the spec (§4.4): the Execution Coordinator call returns
once or raises once. -/
inductive CoordinatorOutcome where
  | success (result : String)
  | failure (error : String)
deriving DecidableEq, Repr

/-- Observable steps taken by `processMessage`, in program order. -/
inductive Action where
  | ack
  | nak
  | countFailure
  | invokeCoordinator (job_id : String)
  | publish (env : ResultEnvelope)
deriving DecidableEq, Repr

/-- Modelled from the spec (§3, §5): in-process consumer state — the
per-`job_id` execution guard set and the per-job `attempt_count` map. -/
structure ConsumerState where
  activeJobs : List String
  attempts : List (String × Nat)
deriving DecidableEq, Repr

def getAttempt (l : List (String × Nat)) (j : String) : Nat :=
  (l.lookup j).getD 0

def setAttempt (l : List (String × Nat)) (j : String) (n : Nat) : List (String × Nat) :=
  (j, n) :: l.filter (fun p => p.1 != j)

def eraseAttempt (l : List (String × Nat)) (j : String) : List (String × Nat) :=
  l.filter (fun p => p.1 != j)

/-- Modelled from the spec (§4.1 `processMessage`, missing module
`services/nats_consumer.py`).  Inputs besides the state and the raw
payload are the oracles the call consumes: whether the Checkpoint Store
already reports the job completed (§4.1 edge case), the coordinator
outcome (§4.4), and the generated event id / timestamp.  Returns the
post-call state and the observable actions in program order:
1–2. malformed payloads are acknowledged and counted as failures;
3. a duplicate delivered while the guard is held is acknowledged only;
4–5. on success the completed envelope is published, then the ack;
6. on failure the attempt count is incremented; below the maximum the
   message is negative-acknowledged, at or above it a failed envelope is
   published and the message acknowledged;
7. the guard is released on every exit path (the returned state's guard
   set equals the incoming one). -/
def processMessage (maxAttempts : Nat) (st : ConsumerState) (raw : RawPayload)
    (checkpointCompleted : Bool) (outcome : CoordinatorOutcome)
    (event_id : String) (event_time : String) : ConsumerState × List Action :=
  match parseJob raw with
  | none => (st, [Action.ack, Action.countFailure])
  | some req =>
    if req.job_id ∈ st.activeJobs then
      (st, [Action.ack])
    else if checkpointCompleted then
      (st, [Action.ack])
    else
      match outcome with
      | CoordinatorOutcome.success r =>
          ({ st with attempts := eraseAttempt st.attempts req.job_id },
           [Action.invokeCoordinator req.job_id,
            Action.publish (publish_result req.job_id r req.trace_id "completed" event_id event_time),
            Action.ack])
      | CoordinatorOutcome.failure e =>
          let n := getAttempt st.attempts req.job_id + 1
          if n < maxAttempts then
            ({ st with attempts := setAttempt st.attempts req.job_id n },
             [Action.invokeCoordinator req.job_id, Action.nak])
          else
            ({ st with attempts := eraseAttempt st.attempts req.job_id },
             [Action.invokeCoordinator req.job_id,
              Action.publish (publish_result req.job_id e req.trace_id "failed" event_id event_time),
              Action.ack])

/-- An action publishes a terminal envelope (`completed` or `failed`) for
job `j`. -/
def isTerminalFor (j : String) : Action → Bool
  | Action.publish env =>
      env.data_job_id == j && (env.data_status == "completed" || env.data_status == "failed")
  | _ => false

/-- Number of terminal envelopes for job `j` among the actions. -/
def terminalCount (acts : List Action) (j : String) : Nat :=
  (acts.filter (isTerminalFor j)).length

/-- Modelled from the spec (§4.1, §7): the life of one accepted job under
at-least-once delivery.  Each list element is the coordinator outcome of
one delivery attempt; the broker redelivers the message exactly when the
consumer negative-acknowledged it, and stops once it was acknowledged. -/
def runJob (maxAttempts : Nat) (raw : RawPayload) (event_id : String)
    (event_time : String) : List CoordinatorOutcome → ConsumerState → List Action
  | [], _ => []
  | o :: rest, st =>
    if Action.nak ∈ (processMessage maxAttempts st raw false o event_id event_time).2 then
      (processMessage maxAttempts st raw false o event_id event_time).2 ++
        runJob maxAttempts raw event_id event_time rest
          (processMessage maxAttempts st raw false o event_id event_time).1
    else
      (processMessage maxAttempts st raw false o event_id event_time).2

/-- Modelled from the spec (§4.1, test `test_consumer_health_check`): the
broker connection object, `None` before any connection is established. -/
structure BrokerConn where
  is_closed : Bool
deriving DecidableEq, Repr

/-- Modelled from the spec (§4.1, §4.5, missing module
`services/nats_consumer.py`): `health_check` is true iff the connection
object exists, is not closed, and the pull loop's `running` flag is set. -/
def health_check (nc : Option BrokerConn) (running : Bool) : Bool :=
  match nc with
  | none => false
  | some c => !c.is_closed && running

/-- The progress broadcast channel for a job, from
`src/tests/utils/mock_workflow.py` (`EventReplayMock.start_replay`):
`langgraph:stream:<job_id>`. -/
def channelName (job_id : String) : String :=
  "langgraph:stream:" ++ job_id

/-- Progress-publisher counters, after
`src/observability/metrics.py` (`agent_executor_redis_publish_total`,
`agent_executor_redis_publish_errors_total`). -/
structure ProgressCounters where
  published : Nat
  publish_errors : Nat
deriving DecidableEq, Repr

/-- Modelled from the spec (§4.3, missing module `services/redis.py`):
one fire-and-forget progress publish.  A failure of the underlying bus is
absorbed: it is counted in the error counter and the function returns
normally (its type is total, not fallible). -/
def publishProgress (channelUp : Bool) (c : ProgressCounters) : ProgressCounters :=
  if channelUp then
    { c with published := c.published + 1 }
  else
    { c with publish_errors := c.publish_errors + 1 }

/-- Modelled from the spec (§4.3, §4.4): an execution that emits a list of
progress events as side effects and ends in the coordinator outcome.  The
outcome is produced by the workflow; the publishes only fold over the
counters. -/
def runExecution (channelUp : Bool) (events : List String)
    (outcome : CoordinatorOutcome) : CoordinatorOutcome × ProgressCounters :=
  (outcome, events.foldl (fun c _ => publishProgress channelUp c) ⟨0, 0⟩)

/-! Character-list translations of the Python string operations used by the
validation tools (`str.startswith`, `str.endswith`, `str.lower`,
`"x" in s`, `s.split(sep)[0]`, `sorted`). -/

def strStartsWith (s p : String) : Bool := p.data.isPrefixOf s.data

def strEndsWith (s p : String) : Bool := p.data.isSuffixOf s.data

def strToLower (s : String) : String := ⟨s.data.map Char.toLower⟩

def charListContains (pat : List Char) : List Char → Bool
  | [] => pat.isEmpty
  | c :: rest => pat.isPrefixOf (c :: rest) || charListContains pat rest

/-- Python `pat in s` on strings. -/
def containsSub (s pat : String) : Bool := charListContains pat.data s.data

def charListBreakAt (sep : List Char) : List Char → List Char
  | [] => []
  | c :: rest => if sep.isPrefixOf (c :: rest) then [] else c :: charListBreakAt sep rest

/-- Python `s.split(sep)[0]`: the text before the first occurrence of `sep`. -/
def splitHead (s sep : String) : String := ⟨charListBreakAt sep.data s.data⟩

def charListLe : List Char → List Char → Bool
  | [], _ => true
  | _ :: _, [] => false
  | a :: as, b :: bs => if a == b then charListLe as bs else decide (a < b)

/-- Python string `<=`, code-point lexicographic. -/
def strLe (a b : String) : Bool := charListLe a.data b.data

/-- `FileData` from `src/tests/mock/tools/pre_work.py` /
`post_work.py`: file contents with metadata. -/
structure FileData where
  content : List String
  created_at : String
  modified_at : String
deriving DecidableEq, Repr

/-- The injected `files` state: an insertion-ordered mapping from path to
`FileData`, as a Python dict. -/
abbrev Files := List (String × FileData)

def fileKeys (files : Files) : List String := files.map Prod.fst

/-- `FILE_TO_AGENT_MAPPING` from `src/tests/mock/tools/pre_work.py`. -/
def FILE_TO_AGENT_MAPPING : List (String × String) :=
  [ ("/user_request.md", "Orchestrator (Step 1)")
  , ("/guardrail_assessment.md", "Guardrail Agent")
  , ("/impact_assessment.md", "Impact Analysis Agent")
  , ("/THE_SPEC/requirements.md", "Workflow Spec Agent")
  , ("/THE_SPEC/plan.md", "Workflow Spec Agent")
  , ("/THE_SPEC/constitution.md", "Workflow Spec Agent")
  , ("/THE_CAST/", "Agent Spec Agent") ]

structure PrereqConfig where
  files : List String
  description : String
deriving DecidableEq, Repr

/-- `AGENT_PREREQUISITES` from `src/tests/mock/tools/pre_work.py`. -/
def AGENT_PREREQUISITES : List (String × PrereqConfig) :=
  [ ("Guardrail Agent",
     ⟨["/user_request.md"], "User request file for assessment"⟩)
  , ("Impact Analysis Agent",
     ⟨["/user_request.md", "/guardrail_assessment.md"],
      "User request and guardrail assessment for blueprint creation"⟩)
  , ("Workflow Spec Agent",
     ⟨["/impact_assessment.md"], "Impact assessment with implementation plan"⟩)
  , ("Agent Spec Agent",
     ⟨["/impact_assessment.md"], "Impact assessment with implementation plan"⟩)
  , ("Multi-Agent Compiler Agent",
     ⟨["/THE_SPEC/requirements.md", "/THE_SPEC/plan.md",
       "/THE_SPEC/constitution.md", "/THE_CAST/"],
      "All specification files for compilation"⟩) ]

/-- The file-existence loop of `pre_work` (`pre_work.py` lines 113–126):
a path ending in `/` is a directory check satisfied when some state key
starts with it; other paths must be present as keys. -/
def missingPrereqs (files : Files) (required : List String) : List String :=
  required.filterMap fun fp =>
    if strEndsWith fp "/" then
      if (fileKeys files).any (fun f => strStartsWith f fp) then none
      else some (fp ++ " (directory does not exist or is empty)")
    else
      if (files.lookup fp).isSome then none else some fp

/-- `pre_work` from `src/tests/mock/tools/pre_work.py` (lines 63–163),
as the tool invocation: it returns its message together with the injected
`files` state, which the body only reads.  The defensive branches for
`files` being `None` or not a dict cannot arise in this typed embedding
and are omitted. -/
def pre_work (agent_name : String) (files : Files) : String × Files :=
  match AGENT_PREREQUISITES.lookup agent_name with
  | none =>
      ("Error: Unknown agent name \"" ++ agent_name ++
       "\".\n\nAvailable agents for prerequisite checking:\n" ++
       String.intercalate ", " (AGENT_PREREQUISITES.map Prod.fst) ++
       "\n\nPlease use the exact agent name from the list above.", files)
  | some config =>
      let missing_files := missingPrereqs files config.files
      if missing_files.isEmpty then
        ("✓ PRE-WORK PASSED: All prerequisites verified for " ++ agent_name, files)
      else
        let responsible := fun (mf : String) =>
          ((FILE_TO_AGENT_MAPPING.lookup (splitHead mf " (")).getD "Unknown")
        let missing_details := missing_files.map fun mf =>
          mf ++ " → Retry: " ++ responsible mf
        let agents_to_retry :=
          (((missing_files.map responsible).filter
              (fun a => a != "Orchestrator (Step 1)")).dedup).mergeSort strLe
        let missing_list := String.intercalate "\n  - " missing_details
        let retry_instruction :=
          if !agents_to_retry.isEmpty then
            "Re-invoke the following agent(s) to create the missing file(s): " ++
            String.intercalate ", " agents_to_retry
          else
            "Workflow initialization incomplete. Ensure Step 1 (Document Your Mission) is completed."
        ("✗ PRE-WORK FAILED: Missing prerequisites for " ++ agent_name ++
         "\n\nExpected: " ++ config.description ++
         "\n\nMissing files and responsible agents:\n  - " ++ missing_list ++
         "\n\nREQUIRED ACTION:\n" ++ retry_instruction, files)

structure DeliverableConfig where
  files : List String
  description : String
  content_checks : List (String × List String)
deriving DecidableEq, Repr

/-- `AGENT_DELIVERABLES` from `src/tests/mock/tools/post_work.py`. -/
def AGENT_DELIVERABLES : List (String × DeliverableConfig) :=
  [ ("Guardrail Agent",
     ⟨["/guardrail_assessment.md"],
      "Guardrail assessment document with security and policy validation",
      [("/guardrail_assessment.md",
        ["## Overall Assessment", "Status:", "## Contextual Guardrails"])]⟩)
  , ("Impact Analysis Agent",
     ⟨["/impact_assessment.md"],
      "Impact assessment with file-by-file implementation plan",
      [("/impact_assessment.md",
        ["requirements.md", "constitution.md", "plan.md",
         "## File-by-File Implementation Plan",
         "## Constitutional Compliance Analysis"])]⟩)
  , ("Workflow Spec Agent",
     ⟨["/THE_SPEC/constitution.md", "/THE_SPEC/plan.md", "/THE_SPEC/requirements.md"],
      "Workflow-level specification files (constitution, plan, requirements)",
      []⟩)
  , ("Agent Spec Agent",
     ⟨["/THE_CAST/"],
      "Agent specification files in /THE_CAST/ directory",
      []⟩)
  , ("Multi-Agent Compiler Agent",
     ⟨["/definition.json"],
      "Compiled workflow definition",
      []⟩) ]

/-- The per-file section check of `post_work` for the Agent Spec Agent
(`post_work.py` lines 128–139): every `.md` file under the directory must
contain a `## System Prompt` and a `## Tools` section (case-insensitive). -/
def mdSectionErrors (files : Files) (dir_files : List String) : List String :=
  List.foldl (fun errs file_key =>
    if strEndsWith file_key ".md" then
      let fd := (files.lookup file_key).getD ⟨[], "", ""⟩
      let content_lower := strToLower (String.intercalate "\n" fd.content)
      let errs :=
        if containsSub content_lower "## system prompt" then errs
        else errs ++ [file_key ++ ": Missing '## System Prompt' section"]
      if containsSub content_lower "## tools" then errs
      else errs ++ [file_key ++ ": Missing '## Tools' section"]
    else errs) [] dir_files

/-- Step 1 of `post_work` (`post_work.py` lines 118–143): the
file-existence loop, accumulating missing files and — for the Agent Spec
Agent's directory — per-file content errors, in iteration order. -/
def postWorkStep1 (agent_name : String) (files : Files)
    (required : List String) : List String × List String :=
  List.foldl (fun acc fp =>
    if strEndsWith fp "/" then
      let dir_files := (fileKeys files).filter (fun f => strStartsWith f fp)
      if dir_files.isEmpty then
        (acc.1 ++ [fp ++ " (directory does not exist or is empty)"], acc.2)
      else if agent_name == "Agent Spec Agent" then
        (acc.1, acc.2 ++ mdSectionErrors files dir_files)
      else acc
    else
      if (files.lookup fp).isSome then acc else (acc.1 ++ [fp], acc.2))
    ([], []) required

/-- Step 2 of `post_work` (`post_work.py` lines 146–157): content checks,
run only when no file is missing. -/
def postWorkContentErrors (files : Files)
    (content_checks : List (String × List String)) : List String :=
  List.foldl (fun errs pc =>
    match files.lookup pc.1 with
    | none => errs
    | some fd =>
      let content_lower := strToLower (String.intercalate "\n" fd.content)
      errs ++ pc.2.filterMap fun rs =>
        if containsSub content_lower (strToLower rs) then none
        else some (pc.1 ++ ": Missing required content '" ++ rs ++ "'"))
    [] content_checks

/-- `post_work` from `src/tests/mock/tools/post_work.py` (lines 67–202),
as the tool invocation: it returns its message together with the injected
`files` state, which the body only reads.  The defensive branches for
`files` being `None` or not a dict cannot arise in this typed embedding
and are omitted. -/
def post_work (agent_name : String) (files : Files) : String × Files :=
  match AGENT_DELIVERABLES.lookup agent_name with
  | none =>
      ("Error: Unknown agent name \"" ++ agent_name ++
       "\".\n\nAvailable agents for verification:\n" ++
       String.intercalate ", " (AGENT_DELIVERABLES.map Prod.fst) ++
       "\n\nPlease use the exact agent name from the list above.", files)
  | some config =>
      let step1 := postWorkStep1 agent_name files config.files
      let missing_files := step1.1
      let content_errors :=
        if missing_files.isEmpty && !config.content_checks.isEmpty then
          step1.2 ++ postWorkContentErrors files config.content_checks
        else step1.2
      if missing_files.isEmpty && content_errors.isEmpty then
        ("✓ QC PASSED: All mandatory deliverables verified for " ++ agent_name, files)
      else
        let error_parts :=
          (if !missing_files.isEmpty then
            ["Missing files:\n  - " ++ String.intercalate "\n  - " missing_files]
           else []) ++
          (if !content_errors.isEmpty then
            ["Content validation failures:\n  - " ++
             String.intercalate "\n  - " content_errors]
           else [])
        let error_details := String.intercalate "\n\n" error_parts
        let bullets := fun (l : List String) =>
          String.intercalate "\n" (l.map (fun s => "   - " ++ s))
        let action_msg :=
          if !missing_files.isEmpty && !content_errors.isEmpty then
            "create the missing files AND fix the content issues"
          else if !missing_files.isEmpty then
            "create the missing files"
          else
            "fix the content validation issues"
        let example_prompt :=
          if !missing_files.isEmpty && !content_errors.isEmpty then
            "The QC check failed. You must:\n1. Create the following missing files:\n" ++
            bullets missing_files ++
            "\n\n2. Fix the following content issues:\n" ++ bullets content_errors
          else if !missing_files.isEmpty then
            "The QC check failed. You must create the following missing files:\n" ++
            bullets missing_files
          else
            "The QC check failed. You must fix the following content issues:\n" ++
            bullets content_errors
        ("✗ QC FAILED: Deliverable validation failed for " ++ agent_name ++
         "\n\nExpected: " ++ config.description ++
         "\n\n" ++ error_details ++
         "\n\nREQUIRED ACTION:\nRe-invoke the " ++ agent_name ++
         " with a detailed prompt specifying what needs to be fixed.\nThe agent must " ++
         action_msg ++ " before proceeding to the next step.\n\nExample revision prompt:\n\"" ++
         example_prompt ++
         "\n\nPlease generate/update these files now according to the implementation plan.\"",
         files)

/-! Theorems. -/

theorem getAttempt_setAttempt (l : List (String × Nat)) (j : String) (n : Nat) :
    getAttempt (setAttempt l j n) j = n := by
  simp [getAttempt, setAttempt, List.lookup]

theorem terminalCount_append (l₁ l₂ : List Action) (j : String) :
    terminalCount (l₁ ++ l₂) j = terminalCount l₁ j + terminalCount l₂ j := by
  simp [terminalCount, List.filter_append]

/-- C7: `health_check` is true iff the broker connection object exists,
is open (not closed) and the pull loop's `running` flag is set; it is
false before any connection exists and false whenever the connection is
closed, regardless of the `running` flag. -/
theorem claim_C7 (nc : Option BrokerConn) (running : Bool) :
    (health_check nc running = true ↔
      ∃ c, nc = some c ∧ c.is_closed = false ∧ running = true) ∧
    health_check none running = false ∧
    (∀ c : BrokerConn, c.is_closed = true → health_check (some c) running = false) := by
  refine ⟨?_, by simp [health_check], ?_⟩
  · cases nc with
    | none => simp [health_check]
    | some c =>
      cases hcl : c.is_closed <;> cases running <;> simp [health_check, hcl]
  · intro c hcl
    simp [health_check, hcl]

/-- C7 witness: a closed connection with the pull loop flag set is
reported unhealthy. -/
theorem claim_C7_witness : health_check (some ⟨true⟩) true = false :=
  (claim_C7 (some ⟨true⟩) true).2.2 ⟨true⟩ rfl

/-- C2: if the per-`job_id` execution guard is already held when a
re-delivered message for that job arrives, `processMessage` acknowledges
the duplicate and takes no further action: the state is unchanged, the
coordinator is not invoked and no envelope is published. -/
theorem claim_C2 (maxA : Nat) (st : ConsumerState) (raw : RawPayload)
    (cc : Bool) (o : CoordinatorOutcome) (eid tm : String) (req : JobRequest)
    (hparse : parseJob raw = some req) (hheld : req.job_id ∈ st.activeJobs) :
    processMessage maxA st raw cc o eid tm = (st, [Action.ack]) ∧
    (∀ env, Action.publish env ∉ (processMessage maxA st raw cc o eid tm).2) ∧
    (∀ j, Action.invokeCoordinator j ∉ (processMessage maxA st raw cc o eid tm).2) := by
  have h : processMessage maxA st raw cc o eid tm = (st, [Action.ack]) := by
    simp [processMessage, hparse, hheld]
  refine ⟨h, ?_, ?_⟩ <;> intro x <;> rw [h] <;> simp

/-- C2 witness: re-delivering job `job-1` while its guard is held yields
a lone acknowledgement. -/
theorem claim_C2_witness :
    processMessage 3 ⟨["job-1"], [("job-1", 0)]⟩
      ⟨true, some "job-1", some "tr-1", some "wf", some "in"⟩ false
      (CoordinatorOutcome.success "ok") "ev-1" "t-1" =
      (⟨["job-1"], [("job-1", 0)]⟩, [Action.ack]) :=
  (claim_C2 3 ⟨["job-1"], [("job-1", 0)]⟩
      ⟨true, some "job-1", some "tr-1", some "wf", some "in"⟩ false
      (CoordinatorOutcome.success "ok") "ev-1" "t-1"
      ⟨"job-1", "tr-1", "wf", "in"⟩ rfl (by decide)).1

/-- C5: a raw payload that is not a well-formed envelope, or is missing
one of the required fields `job_id`, `trace_id`, `workflow_definition`,
`input_payload`, is acknowledged and counted as a failure; it is never
negative-acknowledged and the coordinator is never invoked for it. -/
theorem claim_C5 (maxA : Nat) (st : ConsumerState) (raw : RawPayload)
    (cc : Bool) (o : CoordinatorOutcome) (eid tm : String)
    (hbad : raw.wellFormed = false ∨ raw.job_id = none ∨ raw.trace_id = none ∨
      raw.workflow_definition = none ∨ raw.input_payload = none) :
    processMessage maxA st raw cc o eid tm = (st, [Action.ack, Action.countFailure]) ∧
    Action.nak ∉ (processMessage maxA st raw cc o eid tm).2 ∧
    (∀ j, Action.invokeCoordinator j ∉ (processMessage maxA st raw cc o eid tm).2) := by
  have hparse : parseJob raw = none := by
    obtain ⟨wf, j, t, w, i⟩ := raw
    rcases hbad with h | h | h | h | h <;> simp only at h <;> subst h <;>
      simp [parseJob]
  have h : processMessage maxA st raw cc o eid tm = (st, [Action.ack, Action.countFailure]) := by
    simp [processMessage, hparse]
  refine ⟨h, ?_, ?_⟩
  · rw [h]; simp
  · intro j; rw [h]; simp

/-- C5 witness: a payload missing `trace_id` is acknowledged and counted
as a failure. -/
theorem claim_C5_witness :
    processMessage 3 ⟨[], []⟩ ⟨true, some "job-1", none, some "wf", some "in"⟩ false
      (CoordinatorOutcome.success "ok") "ev-1" "t-1" =
      (⟨[], []⟩, [Action.ack, Action.countFailure]) :=
  (claim_C5 3 ⟨[], []⟩ ⟨true, some "job-1", none, some "wf", some "in"⟩ false
      (CoordinatorOutcome.success "ok") "ev-1" "t-1" (Or.inr (Or.inr (Or.inl rfl)))).1

/-- C6: `publish_result(job_id, result, trace_id, status)` with a
terminal status publishes a structured envelope carrying
`spec_version = "1.0"`, the constant `type`, the `source`, the generated
`id` and `time`, and a `data` object whose `job_id` equals the call's
`job_id` argument. -/
theorem claim_C6 (job_id result trace_id status eid tm : String)
    (_hstatus : status = "completed" ∨ status = "failed") :
    (publish_result job_id result trace_id status eid tm).spec_version = "1.0" ∧
    (publish_result job_id result trace_id status eid tm).type =
      "dev.my-platform.agent.status" ∧
    (publish_result job_id result trace_id status eid tm).source = "agent-executor" ∧
    (publish_result job_id result trace_id status eid tm).subject = job_id ∧
    (publish_result job_id result trace_id status eid tm).id = eid ∧
    (publish_result job_id result trace_id status eid tm).time = tm ∧
    (publish_result job_id result trace_id status eid tm).data_job_id = job_id ∧
    (publish_result job_id result trace_id status eid tm).data_trace_id = trace_id ∧
    (publish_result job_id result trace_id status eid tm).data_status = status := by
  simp [publish_result]

/-- C6 witness: a `completed` publication for `result-job-001` carries
`data.job_id = "result-job-001"` and `spec_version = "1.0"`. -/
theorem claim_C6_witness :
    (publish_result "result-job-001" "ok" "result-trace-001" "completed"
      "ev-1" "t-1").spec_version = "1.0" ∧
    (publish_result "result-job-001" "ok" "result-trace-001" "completed"
      "ev-1" "t-1").data_job_id = "result-job-001" :=
  ⟨(claim_C6 "result-job-001" "ok" "result-trace-001" "completed" "ev-1" "t-1"
      (Or.inl rfl)).1,
   (claim_C6 "result-job-001" "ok" "result-trace-001" "completed" "ev-1" "t-1"
      (Or.inl rfl)).2.2.2.2.2.2.1⟩

/-- C3: when the coordinator call returns successfully, the actions of
`processMessage` are: invoke, publish the `completed` envelope, then
acknowledge — every acknowledgement strictly follows the publish of the
completed envelope, so the message is never acknowledged before the
emitter confirmed publication. -/
theorem claim_C3 (maxA : Nat) (st : ConsumerState) (raw : RawPayload)
    (r eid tm : String) (req : JobRequest)
    (hparse : parseJob raw = some req) (hfree : req.job_id ∉ st.activeJobs) :
    (processMessage maxA st raw false (CoordinatorOutcome.success r) eid tm).2 =
      [Action.invokeCoordinator req.job_id,
       Action.publish (publish_result req.job_id r req.trace_id "completed" eid tm),
       Action.ack] ∧
    (∀ i k : Nat,
      (processMessage maxA st raw false (CoordinatorOutcome.success r) eid tm).2[i]? =
        some Action.ack →
      (processMessage maxA st raw false (CoordinatorOutcome.success r) eid tm).2[k]? =
        some (Action.publish (publish_result req.job_id r req.trace_id "completed" eid tm)) →
      k < i) := by
  have h : (processMessage maxA st raw false (CoordinatorOutcome.success r) eid tm).2 =
      [Action.invokeCoordinator req.job_id,
       Action.publish (publish_result req.job_id r req.trace_id "completed" eid tm),
       Action.ack] := by
    simp [processMessage, hparse, hfree]
  refine ⟨h, ?_⟩
  intro i k hi hk
  rw [h] at hi hk
  rcases i with _ | _ | _ | i <;> rcases k with _ | _ | _ | k <;> simp_all

/-- C3 witness: a successful execution of job `job-1` publishes the
completed envelope at position 1 and acknowledges at position 2. -/
theorem claim_C3_witness :
    (processMessage 3 ⟨[], []⟩ ⟨true, some "job-1", some "tr-1", some "wf", some "in"⟩
      false (CoordinatorOutcome.success "ok") "ev-1" "t-1").2 =
      [Action.invokeCoordinator "job-1",
       Action.publish (publish_result "job-1" "ok" "tr-1" "completed" "ev-1" "t-1"),
       Action.ack] :=
  (claim_C3 3 ⟨[], []⟩ ⟨true, some "job-1", some "tr-1", some "wf", some "in"⟩
      "ok" "ev-1" "t-1" ⟨"job-1", "tr-1", "wf", "in"⟩ rfl (by decide)).1

/-- C4: on a coordinator failure the attempt count is incremented; while
the new count is below the configured maximum the message is
negative-acknowledged and no envelope is emitted for the attempt, and
once the count reaches the maximum exactly one `failed` envelope carrying
the last error is published and the message acknowledged. -/
theorem claim_C4 (maxA : Nat) (st : ConsumerState) (raw : RawPayload)
    (e eid tm : String) (req : JobRequest)
    (hparse : parseJob raw = some req) (hfree : req.job_id ∉ st.activeJobs) :
    (getAttempt st.attempts req.job_id + 1 < maxA →
      processMessage maxA st raw false (CoordinatorOutcome.failure e) eid tm =
        (⟨st.activeJobs,
          setAttempt st.attempts req.job_id (getAttempt st.attempts req.job_id + 1)⟩,
         [Action.invokeCoordinator req.job_id, Action.nak]) ∧
      getAttempt (processMessage maxA st raw false
          (CoordinatorOutcome.failure e) eid tm).1.attempts req.job_id =
        getAttempt st.attempts req.job_id + 1 ∧
      terminalCount (processMessage maxA st raw false
        (CoordinatorOutcome.failure e) eid tm).2 req.job_id = 0) ∧
    (maxA ≤ getAttempt st.attempts req.job_id + 1 →
      processMessage maxA st raw false (CoordinatorOutcome.failure e) eid tm =
        (⟨st.activeJobs, eraseAttempt st.attempts req.job_id⟩,
         [Action.invokeCoordinator req.job_id,
          Action.publish (publish_result req.job_id e req.trace_id "failed" eid tm),
          Action.ack]) ∧
      terminalCount (processMessage maxA st raw false
        (CoordinatorOutcome.failure e) eid tm).2 req.job_id = 1) := by
  constructor
  · intro hlt
    have h : processMessage maxA st raw false (CoordinatorOutcome.failure e) eid tm =
        (⟨st.activeJobs,
          setAttempt st.attempts req.job_id (getAttempt st.attempts req.job_id + 1)⟩,
         [Action.invokeCoordinator req.job_id, Action.nak]) := by
      simp [processMessage, hparse, hfree, hlt]
    refine ⟨h, ?_, ?_⟩
    · rw [h]; exact getAttempt_setAttempt ..
    · rw [h]; simp [terminalCount, isTerminalFor]
  · intro hge
    have h : processMessage maxA st raw false (CoordinatorOutcome.failure e) eid tm =
        (⟨st.activeJobs, eraseAttempt st.attempts req.job_id⟩,
         [Action.invokeCoordinator req.job_id,
          Action.publish (publish_result req.job_id e req.trace_id "failed" eid tm),
          Action.ack]) := by
      simp [processMessage, hparse, hfree, Nat.not_lt.mpr hge]
    refine ⟨h, ?_⟩
    rw [h]
    simp [terminalCount, isTerminalFor, publish_result]

/-- C4 witness: with a maximum of 2 attempts, the first failure of
`job-1` is negative-acknowledged with no envelope, and the second failure
publishes exactly one `failed` envelope. -/
theorem claim_C4_witness :
    (processMessage 2 ⟨[], []⟩ ⟨true, some "job-1", some "tr-1", some "wf", some "in"⟩
        false (CoordinatorOutcome.failure "boom") "ev-1" "t-1" =
      (⟨[], [("job-1", 1)]⟩, [Action.invokeCoordinator "job-1", Action.nak])) ∧
    terminalCount (processMessage 2 ⟨[], [("job-1", 1)]⟩
        ⟨true, some "job-1", some "tr-1", some "wf", some "in"⟩
        false (CoordinatorOutcome.failure "boom") "ev-1" "t-1").2 "job-1" = 1 :=
  ⟨((claim_C4 2 ⟨[], []⟩ ⟨true, some "job-1", some "tr-1", some "wf", some "in"⟩
      "boom" "ev-1" "t-1" ⟨"job-1", "tr-1", "wf", "in"⟩ rfl (by decide)).1
      (by decide)).1,
   ((claim_C4 2 ⟨[], [("job-1", 1)]⟩ ⟨true, some "job-1", some "tr-1", some "wf", some "in"⟩
      "boom" "ev-1" "t-1" ⟨"job-1", "tr-1", "wf", "in"⟩ rfl (by decide)).2
      (by decide)).2⟩

theorem foldl_publishProgress_false (events : List String) (c : ProgressCounters) :
    (events.foldl (fun c _ => publishProgress false c) c).publish_errors =
      c.publish_errors + events.length := by
  induction events generalizing c with
  | nil => simp
  | cons e rest ih =>
    rw [List.foldl_cons, ih]
    simp [publishProgress]
    omega

theorem foldl_publishProgress_true (events : List String) (c : ProgressCounters) :
    (events.foldl (fun c _ => publishProgress true c) c).publish_errors =
      c.publish_errors := by
  induction events generalizing c with
  | nil => rfl
  | cons e rest ih =>
    rw [List.foldl_cons, ih]
    simp [publishProgress]

/-- C8: a failing progress publish is absorbed — it is recorded in the
publish-error counter and the publishing function returns normally — and
the execution reaches the same terminal outcome whether or not the
progress channel is available. -/
theorem claim_C8 (events : List String) (o : CoordinatorOutcome) :
    (∀ channelUp, (runExecution channelUp events o).1 = o) ∧
    (runExecution false events o).1 = (runExecution true events o).1 ∧
    (runExecution false events o).2.publish_errors = events.length ∧
    (runExecution true events o).2.publish_errors = 0 := by
  refine ⟨fun _ => rfl, rfl, ?_, ?_⟩
  · simpa using foldl_publishProgress_false events ⟨0, 0⟩
  · simpa using foldl_publishProgress_true events ⟨0, 0⟩

/-- C9: the progress broadcast channel is the deterministic function
`langgraph:stream:<job_id>` of the job id alone — equal job ids give the
same channel, distinct job ids give distinct channels. -/
theorem claim_C9 (a b : String) :
    channelName a = "langgraph:stream:" ++ a ∧
    (channelName a = channelName b ↔ a = b) := by
  refine ⟨rfl, ?_, fun h => by rw [h]⟩
  intro h
  have hd : "langgraph:stream:".data ++ a.data =
      "langgraph:stream:".data ++ b.data := by
    have hdata := congrArg String.data h
    simpa [channelName, String.data_append] using hdata
  have hab : a.data = b.data := List.append_cancel_left hd
  cases a; cases b
  exact congrArg String.mk (by simpa using hab)

/-- Invariant for the life of an accepted job: starting from any attempt
count `k` still below the maximum, with enough delivery attempts left to
reach the maximum, the run publishes exactly one terminal envelope for
the job. -/
theorem runJob_terminalCount (maxA : Nat) (raw : RawPayload) (eid tm : String)
    (req : JobRequest) (hparse : parseJob raw = some req) :
    ∀ (outcomes : List CoordinatorOutcome) (st : ConsumerState) (k : Nat),
      req.job_id ∉ st.activeJobs →
      getAttempt st.attempts req.job_id = k →
      k < maxA →
      maxA ≤ k + outcomes.length →
      terminalCount (runJob maxA raw eid tm outcomes st) req.job_id = 1 := by
  intro outcomes
  induction outcomes with
  | nil =>
    intro st k _ _ hlt hlen
    simp only [List.length_nil, Nat.add_zero] at hlen
    omega
  | cons o rest ih =>
    intro st k hfree hk hlt hlen
    have hlen' : maxA ≤ k + (rest.length + 1) := by simpa using hlen
    cases o with
    | success r =>
      have hstep : processMessage maxA st raw false (CoordinatorOutcome.success r) eid tm =
          (⟨st.activeJobs, eraseAttempt st.attempts req.job_id⟩,
           [Action.invokeCoordinator req.job_id,
            Action.publish (publish_result req.job_id r req.trace_id "completed" eid tm),
            Action.ack]) := by
        simp [processMessage, hparse, hfree]
      rw [runJob, hstep]
      simp [terminalCount, isTerminalFor, publish_result]
    | failure e =>
      by_cases hc : k + 1 < maxA
      · have hstep : processMessage maxA st raw false (CoordinatorOutcome.failure e) eid tm =
            (⟨st.activeJobs, setAttempt st.attempts req.job_id (k + 1)⟩,
             [Action.invokeCoordinator req.job_id, Action.nak]) := by
          simp [processMessage, hparse, hfree, hk, hc]
        rw [runJob, hstep, if_pos (by simp)]
        rw [terminalCount_append]
        have h0 : terminalCount [Action.invokeCoordinator req.job_id, Action.nak]
            req.job_id = 0 := by
          simp [terminalCount, isTerminalFor]
        rw [h0]
        rw [ih ⟨st.activeJobs, setAttempt st.attempts req.job_id (k + 1)⟩ (k + 1)
          hfree (getAttempt_setAttempt ..) hc (by omega)]
      · have hstep : processMessage maxA st raw false (CoordinatorOutcome.failure e) eid tm =
            (⟨st.activeJobs, eraseAttempt st.attempts req.job_id⟩,
             [Action.invokeCoordinator req.job_id,
              Action.publish (publish_result req.job_id e req.trace_id "failed" eid tm),
              Action.ack]) := by
          simp [processMessage, hparse, hfree, hk, hc]
        rw [runJob, hstep]
        simp [terminalCount, isTerminalFor, publish_result]

/-- C1: an accepted Job Request (well-formed, fresh guard, fresh attempt
count) processed under at-least-once delivery with enough delivery
attempts to reach the retry maximum produces exactly one terminal Result
Envelope for its `job_id`, and once the job's terminal state is recorded
(checkpoint reports completion) any re-delivered message produces no
further terminal envelope. -/
theorem claim_C1 (maxA : Nat) (raw : RawPayload) (eid tm : String)
    (outcomes : List CoordinatorOutcome) (st : ConsumerState) (req : JobRequest)
    (hparse : parseJob raw = some req) (hfree : req.job_id ∉ st.activeJobs)
    (hnew : getAttempt st.attempts req.job_id = 0)
    (hpos : 0 < maxA) (hlen : maxA ≤ outcomes.length) :
    terminalCount (runJob maxA raw eid tm outcomes st) req.job_id = 1 ∧
    (∀ (st₂ : ConsumerState) (o₂ : CoordinatorOutcome),
      terminalCount (processMessage maxA st₂ raw true o₂ eid tm).2 req.job_id = 0) := by
  constructor
  · exact runJob_terminalCount maxA raw eid tm req hparse outcomes st 0 hfree hnew
      hpos (by omega)
  · intro st₂ o₂
    by_cases h₂ : req.job_id ∈ st₂.activeJobs
    · have : processMessage maxA st₂ raw true o₂ eid tm = (st₂, [Action.ack]) := by
        simp [processMessage, hparse, h₂]
      rw [this]
      simp [terminalCount, isTerminalFor]
    · have : processMessage maxA st₂ raw true o₂ eid tm = (st₂, [Action.ack]) := by
        simp [processMessage, hparse, h₂]
      rw [this]
      simp [terminalCount, isTerminalFor]

/-- C1 witness: job `job-1`, maximum of two attempts, two failing
deliveries — the run publishes exactly one terminal envelope, and a
re-delivery with the checkpoint reporting completion publishes none. -/
theorem claim_C1_witness :
    terminalCount (runJob 2 ⟨true, some "job-1", some "tr-1", some "wf", some "in"⟩
      "ev-1" "t-1" [CoordinatorOutcome.failure "boom", CoordinatorOutcome.failure "boom"]
      ⟨[], []⟩) "job-1" = 1 ∧
    terminalCount (processMessage 2 ⟨[], []⟩
      ⟨true, some "job-1", some "tr-1", some "wf", some "in"⟩ true
      (CoordinatorOutcome.success "ok") "ev-1" "t-1").2 "job-1" = 0 := by
  have h := claim_C1 2 ⟨true, some "job-1", some "tr-1", some "wf", some "in"⟩
    "ev-1" "t-1" [CoordinatorOutcome.failure "boom", CoordinatorOutcome.failure "boom"]
    ⟨[], []⟩ ⟨"job-1", "tr-1", "wf", "in"⟩ rfl (by decide) rfl (by decide) (by decide)
  exact ⟨h.1, h.2 ⟨[], []⟩ (CoordinatorOutcome.success "ok")⟩

/-- C10: for every agent name and every injected files state, `pre_work`
and `post_work` return only a verdict string — a PASSED message, a FAILED
message, or an unknown-agent error (never an exception) — and leave the
injected files state exactly unchanged. -/
theorem claim_C10 (agent_name : String) (files : Files) :
    ((pre_work agent_name files).2 = files ∧
      ((∃ r, (pre_work agent_name files).1 =
          "✓ PRE-WORK PASSED: All prerequisites verified for " ++ r) ∨
       (∃ r, (pre_work agent_name files).1 =
          "✗ PRE-WORK FAILED: Missing prerequisites for " ++ r) ∨
       (∃ r, (pre_work agent_name files).1 =
          "Error: Unknown agent name \"" ++ r))) ∧
    ((post_work agent_name files).2 = files ∧
      ((∃ r, (post_work agent_name files).1 =
          "✓ QC PASSED: All mandatory deliverables verified for " ++ r) ∨
       (∃ r, (post_work agent_name files).1 =
          "✗ QC FAILED: Deliverable validation failed for " ++ r) ∨
       (∃ r, (post_work agent_name files).1 =
          "Error: Unknown agent name \"" ++ r))) := by
  constructor
  · cases h : AGENT_PREREQUISITES.lookup agent_name with
    | none =>
      refine ⟨by simp [pre_work, h], Or.inr (Or.inr ?_)⟩
      simp only [pre_work, h, String.append_assoc]
      exact ⟨_, rfl⟩
    | some config =>
      by_cases hm : (missingPrereqs files config.files).isEmpty
      · refine ⟨by simp [pre_work, h, hm], Or.inl ?_⟩
        simp only [pre_work, h, hm, if_true, String.append_assoc]
        exact ⟨_, rfl⟩
      · refine ⟨by simp [pre_work, h, hm], Or.inr (Or.inl ?_)⟩
        simp only [pre_work, h, hm, if_false, Bool.false_eq_true, String.append_assoc]
        exact ⟨_, rfl⟩
  · cases h : AGENT_DELIVERABLES.lookup agent_name with
    | none =>
      refine ⟨by simp [post_work, h], Or.inr (Or.inr ?_)⟩
      simp only [post_work, h, String.append_assoc]
      exact ⟨_, rfl⟩
    | some config =>
      refine ⟨?_, ?_⟩
      · simp only [post_work, h]
        split <;> split <;> rfl
      · simp only [post_work, h]
        split <;> split <;>
          first
            | exact Or.inl ⟨agent_name, rfl⟩
            | (refine Or.inr (Or.inl ?_)
               simp only [String.append_assoc]
               exact ⟨_, rfl⟩)

end AgentExec
